import Mathlib

/-!
Verification of the KrishiRaksha claim-evaluation core.

Shallow embedding of the agricultural-insurance claim pipeline:
land-size parsing and unit conversion (`ml/api/utils.py`), the fraud and
yield feature builders (`ml/inference/fraud_detection.py`,
`ml/inference/yield_prediction.py`), the perceptual-hash duplicate engine
(`ml/inference/image_verification.py`) and the decision-fusion rule cascade
(`ml/inference/claim_evaluator.py`).  Floating-point values are modelled as
rationals; a Python function that raises is modelled as returning `none`.
String primitives (`str.split`, `str.lower`, `str.strip`, `float(...)`)
are modelled by executable functions over the character list of the
string, so every definition can be evaluated on concrete inputs.
-/

namespace KR

/-- Accumulator-based whitespace splitter over a character list: `cur` is
the current token reversed, `acc` the finished tokens reversed. -/
def splitWSAux (cur : List Char) (acc : List (List Char)) : List Char → List (List Char)
  | [] => if cur = [] then acc.reverse else (cur.reverse :: acc).reverse
  | c :: rest =>
    if c.isWhitespace then
      if cur = [] then splitWSAux [] acc rest
      else splitWSAux [] (cur.reverse :: acc) rest
    else splitWSAux (c :: cur) acc rest

/-- Whitespace tokenisation matching Python `str.strip().split()`:
split on runs of whitespace, dropping empty tokens. -/
def splitWS (s : String) : List String :=
  (splitWSAux [] [] s.data).map (fun cs => ⟨cs⟩)

/-- ASCII lowercasing of a string, modelling Python `str.lower()` on the
ASCII unit/crop tokens the pipeline uses. -/
def toLowerStr (s : String) : String := ⟨s.data.map Char.toLower⟩

/-- Leading/trailing whitespace removal, modelling Python `str.strip()`. -/
def trimStr (s : String) : String :=
  ⟨((s.data.dropWhile Char.isWhitespace).reverse.dropWhile Char.isWhitespace).reverse⟩

/-- Value of a list of decimal digit characters, most significant first. -/
def digitsToNat (cs : List Char) : Nat :=
  cs.foldl (fun a c => a * 10 + (c.toNat - 48)) 0

/-- Syntactic form of a parsed decimal numeral: sign, integer digits,
fraction digits, exponent sign and exponent digits (empty exponent-digit
list means no exponent suffix was present). -/
structure FloatTok where
  negative : Bool
  intDigits : List Char
  fracDigits : List Char
  expNegative : Bool
  expDigits : List Char
  deriving DecidableEq

/-- Exact rational value of a parsed decimal numeral. -/
def floatTokValue (t : FloatTok) : ℚ :=
  let mant : ℚ :=
    (digitsToNat t.intDigits : ℚ) + (digitsToNat t.fracDigits : ℚ) / 10 ^ t.fracDigits.length
  let signed := if t.negative then -mant else mant
  if t.expNegative then signed / 10 ^ digitsToNat t.expDigits
  else signed * 10 ^ digitsToNat t.expDigits

/-- Exponent-suffix recogniser used by `parseFloatTok`: an optional sign
followed by at least one digit and nothing else. -/
def parseExpTok (neg : Bool) (intD fracD : List Char) (cs : List Char) : Option FloatTok :=
  let signed : Bool × List Char :=
    match cs with
    | '-' :: rest => (true, rest)
    | '+' :: rest => (false, rest)
    | _ => (false, cs)
  let ds := signed.2.takeWhile Char.isDigit
  let rest := signed.2.dropWhile Char.isDigit
  if ds = [] ∨ rest ≠ [] then none
  else some ⟨neg, intD, fracD, signed.1, ds⟩

/-- Recogniser for Python `float(token)` on a whitespace-free token:
optional sign, decimal digits with an optional point (at least one digit
required), optional exponent.  `none` models the raised `ValueError`
(the non-finite literals `inf`/`nan` are outside the rational model). -/
def parseFloatTok (cs : List Char) : Option FloatTok :=
  let signed : Bool × List Char :=
    match cs with
    | '-' :: rest => (true, rest)
    | '+' :: rest => (false, rest)
    | _ => (false, cs)
  let neg := signed.1
  let intD := signed.2.takeWhile Char.isDigit
  let afterInt := signed.2.dropWhile Char.isDigit
  match afterInt with
  | [] => if intD = [] then none else some ⟨neg, intD, [], false, []⟩
  | '.' :: rest2 =>
    let fracD := rest2.takeWhile Char.isDigit
    let rest3 := rest2.dropWhile Char.isDigit
    if intD = [] ∧ fracD = [] then none
    else
      match rest3 with
      | [] => some ⟨neg, intD, fracD, false, []⟩
      | e :: rest4 => if e = 'e' ∨ e = 'E' then parseExpTok neg intD fracD rest4 else none
  | e :: rest2 =>
    if (e = 'e' ∨ e = 'E') ∧ intD ≠ [] then parseExpTok neg intD [] rest2 else none

/-- Numeric value of a token, modelling Python `float(token)`. -/
def parseFloat (s : String) : Option ℚ := (parseFloatTok s.data).map floatTokValue

/-- Embeds `api.utils.parse_land_size`: strip and split the land-size
string, require at least two tokens, parse the first as a number and
lowercase the second as the unit.  `none` models the raised `ValueError`. -/
def parse_land_size (landSize : String) : Option (ℚ × String) :=
  let parts := splitWS landSize
  if parts.length < 2 then none
  else
    match parseFloat (parts.getD 0 "") with
    | none => none
    | some v => some (v, toLowerStr (parts.getD 1 ""))

/-- Association-list lookup by string key, modelling Python `dict` lookup. -/
def lookupStr {α : Type} (key : String) : List (String × α) → Option α
  | [] => none
  | (k, v) :: rest => if key = k then some v else lookupStr key rest

/-- The `conversion_factors` table of `api.utils.convert_to_hectares`. -/
def conversion_factors : List (String × ℚ) :=
  [("acre", 404686 / 1000000),
   ("hectare", 1),
   ("hectares", 1),
   ("bigha", 1338 / 10000),
   ("katha", 67 / 10000),
   ("kanal", 506 / 10000),
   ("marla", 25 / 10000),
   ("guntha", 101 / 10000),
   ("cent", 40 / 10000),
   ("cents", 40 / 10000)]

/-- Embeds `api.utils.convert_to_hectares`: case-insensitive table lookup;
an unknown unit returns the value unchanged (logged as a warning in the
source, not raised as an error). -/
def convert_to_hectares (value : ℚ) (unit : String) : ℚ :=
  match lookupStr (toLowerStr unit) conversion_factors with
  | none => value
  | some f => value * f

/-- Embeds `FraudDetector._parse_land_size`: delegates to
`parse_land_size` and `convert_to_hectares`, catching any failure and
defaulting to 1 hectare. -/
def fraud_parse_land_size (landSize : String) : ℚ :=
  match parse_land_size landSize with
  | some (v, u) => convert_to_hectares v u
  | none => 1

/-- Embeds `YieldPredictor._parse_land_size`: same body as the fraud
detector's copy — parse failures are caught and default to 1 hectare. -/
def yield_parse_land_size (landSize : String) : ℚ :=
  match parse_land_size landSize with
  | some (v, u) => convert_to_hectares v u
  | none => 1

/-- The `crop_encoding` table shared (textually duplicated) by
`FraudDetector._encode_crop_type` and `YieldPredictor._encode_crop_type`. -/
def crop_encoding : List (String × ℕ) :=
  [("rice", 0), ("wheat", 1), ("cotton", 2), ("sugarcane", 3), ("maize", 4)]

/-- Embeds `FraudDetector._encode_crop_type`: lowercase and strip, table
lookup with default 0. -/
def fraud_encode_crop_type (cropType : String) : ℕ :=
  (lookupStr (trimStr (toLowerStr cropType)) crop_encoding).getD 0

/-- Embeds `YieldPredictor._encode_crop_type`: identical body to the fraud
detector's copy. -/
def yield_encode_crop_type (cropType : String) : ℕ :=
  (lookupStr (trimStr (toLowerStr cropType)) crop_encoding).getD 0

/-- The `soil_encoding` table of `YieldPredictor._encode_soil_type`. -/
def soil_encoding : List (String × ℕ) :=
  [("alluvial", 0), ("black", 1), ("red", 2), ("laterite", 3), ("desert", 4)]

/-- Embeds `YieldPredictor._encode_soil_type`. -/
def encode_soil_type (soilType : String) : ℕ :=
  (lookupStr (trimStr (toLowerStr soilType)) soil_encoding).getD 0

/-- The `irrigation_encoding` table of
`YieldPredictor._encode_irrigation_type`. -/
def irrigation_encoding : List (String × ℕ) :=
  [("drip", 0), ("sprinkler", 1), ("flood", 2), ("rainfed", 3)]

/-- Embeds `YieldPredictor._encode_irrigation_type`. -/
def encode_irrigation_type (irrigationType : String) : ℕ :=
  (lookupStr (trimStr (toLowerStr irrigationType)) irrigation_encoding).getD 0

/-- Optional weather snapshot passed by the caller: each known key may be
present (numeric) or absent, modelling the Python dict accesses
`weather_data.get(key, default)`. -/
structure WeatherInput where
  temperature : Option ℚ
  rainfall : Option ℚ
  humidity : Option ℚ
  wind_speed : Option ℚ
  sunshine_hours : Option ℚ

/-- Fully populated weather record produced by
`api.utils.extract_weather_features`. -/
structure WeatherFeatures where
  temperature : ℚ
  rainfall : ℚ
  humidity : ℚ
  wind_speed : ℚ
  sunshine_hours : ℚ

/-- Embeds `api.utils.extract_weather_features`: every missing key (or a
wholly absent dictionary) is filled with the documented default
(25 °C, 0 mm, 60 %, 5 km/h, 8 h). -/
def extract_weather_features : Option WeatherInput → WeatherFeatures
  | none => ⟨25, 0, 60, 5, 8⟩
  | some w =>
    ⟨w.temperature.getD 25, w.rainfall.getD 0, w.humidity.getD 60,
     w.wind_speed.getD 5, w.sunshine_hours.getD 8⟩

/-- Embeds `FraudDetector._calculate_weather_anomaly_score`: +30 points if
temperature is outside [20,35], +40 if rainfall is outside [50,150], +30
if humidity is outside [40,80]; capped at 100. -/
def calculate_weather_anomaly_score (w : WeatherFeatures) : ℚ :=
  let s1 : ℚ := if w.temperature < 20 ∨ w.temperature > 35 then 30 else 0
  let s2 : ℚ := s1 + (if w.rainfall < 50 ∨ w.rainfall > 150 then 40 else 0)
  let s3 : ℚ := s2 + (if w.humidity < 40 ∨ w.humidity > 80 then 30 else 0)
  min 100 s3

/-- Embeds `FraudDetector._prepare_features`: the 12-element fraud feature
vector, in the order fixed by `feature_names`.  The per-hectare and
per-yield quotients are guarded so that a non-positive denominator gives
0 instead of a division error. -/
def fraud_prepare_features (cropType landSize : String) (expectedYield claimAmount : ℚ)
    (weatherFeatures : Option WeatherInput) (historicalClaims : ℕ) : List ℚ :=
  let cropEncoded : ℚ := fraud_encode_crop_type cropType
  let landSizeHectares := fraud_parse_land_size landSize
  let w := extract_weather_features weatherFeatures
  let yieldPerHectare := if landSizeHectares > 0 then expectedYield / landSizeHectares else 0
  let claimPerHectare := if landSizeHectares > 0 then claimAmount / landSizeHectares else 0
  let claimToYieldQuot := if expectedYield > 0 then claimAmount / expectedYield else 0
  let weatherAnomalyScore := calculate_weather_anomaly_score w
  [cropEncoded, landSizeHectares, expectedYield, claimAmount, yieldPerHectare,
   claimPerHectare, claimToYieldQuot, (historicalClaims : ℚ), w.temperature,
   w.rainfall, w.humidity, weatherAnomalyScore]

/-- Embeds `YieldPredictor._determine_season` after `strptime` has parsed
the sowing date: Kharif for months 6–10, Rabi for months ≥11 or ≤4,
returned as 0/1 flags. -/
def determine_season (month : ℕ) : ℕ × ℕ :=
  let isKharif := 6 ≤ month ∧ month ≤ 10
  let isRabi := month ≥ 11 ∨ month ≤ 4
  (if isKharif then 1 else 0, if isRabi then 1 else 0)

/-- Embeds `YieldPredictor._prepare_features`: the 13-element yield feature
vector in the order fixed by `feature_names`.  The clock-dependent
days-since-sowing value and the `strptime`-parsed sowing month are passed
as parameters (`datetime.now()` is not part of the model); the fertilizer
input in kg/acre is divided by the source's literal constant 0.4047. -/
def yield_prepare_features (cropType landSize : String) (daysSinceSowing : ℕ)
    (sowingMonth : ℕ) (soilType irrigationType : String) (fertilizerUsage : ℚ)
    (weatherFeatures : Option WeatherInput) : List ℚ :=
  let cropEncoded : ℚ := yield_encode_crop_type cropType
  let soilEncoded : ℚ := encode_soil_type soilType
  let irrigationEncoded : ℚ := encode_irrigation_type irrigationType
  let landSizeHectares := yield_parse_land_size landSize
  let season := determine_season sowingMonth
  let w := extract_weather_features weatherFeatures
  let fertilizerKgPerHectare := fertilizerUsage / (4047 / 10000)
  [cropEncoded, landSizeHectares, (daysSinceSowing : ℚ), soilEncoded, irrigationEncoded,
   fertilizerKgPerHectare, w.temperature, w.rainfall, w.humidity, w.wind_speed,
   w.sunshine_hours, (season.1 : ℚ), (season.2 : ℚ)]

/-- Bit-count worker, structurally recursive on a fuel argument that
bounds the number of halvings. -/
def popCountAux : ℕ → ℕ → ℕ
  | 0, _ => 0
  | _ + 1, 0 => 0
  | fuel + 1, n => popCountAux fuel (n / 2) + n % 2

/-- Number of set bits of a natural number (`n` itself bounds the number
of halvings needed, since `n < 2 ^ n`). -/
def popCount (n : ℕ) : ℕ := popCountAux n n

/-- Hamming distance between two hashes viewed as bit vectors: the number
of positions at which their binary representations differ. -/
def hammingDist (h1 h2 : ℕ) : ℕ := popCount (h1 ^^^ h2)

/-- Embeds `ImageVerifier._hash_similarity` for the 64-bit aHash values
the pipeline stores: both hex strings zero-fill to 64 binary characters,
so the character-mismatch count is the Hamming distance and the
similarity is `1 − distance/64`. -/
def hash_similarity (h1 h2 : ℕ) : ℚ := 1 - (hammingDist h1 h2 : ℚ) / 64

/-- The running maximum of `_check_duplicate`: fold of `max` over the
similarity of the query against every stored hash, starting from 0. -/
def max_similarity (h : ℕ) (stored : List ℕ) : ℚ :=
  stored.foldl (fun m s => max m (hash_similarity h s)) 0

/-- Embeds `ImageVerifier._check_duplicate`: empty store is never a
duplicate; an exact member is a duplicate with confidence 100; otherwise
the maximum similarity is compared against the threshold and scaled to a
percentage.  Hashes are modelled as the numeric value of their hex
strings. -/
def check_duplicate (imageHash : ℕ) (stored : List ℕ) (threshold : ℚ) : Bool × ℚ :=
  if stored = [] then (false, 0)
  else if imageHash ∈ stored then (true, 100)
  else
    let maxSim := max_similarity imageHash stored
    (decide (maxSim ≥ threshold), maxSim * 100)

/-- Embeds the duplicate-handling tail of `ImageVerifier.verify` (hash
computed, `_check_duplicate` at the default 0.95 threshold, and the
conditional `self.image_hashes.add`): returns the (is_duplicate,
duplicate_confidence) pair and the updated hash store.  The non-duplicate
branch prepends the hash, which is exactly set insertion because an
exact member would have been reported as a duplicate. -/
def verify_dedup (imageHash : ℕ) (stored : List ℕ) : (Bool × ℚ) × List ℕ :=
  let checked := check_duplicate imageHash stored (95 / 100)
  (checked, if checked.1 then stored else imageHash :: stored)

/-- Soft findings accumulated by rules 4–6 of
`ClaimEvaluator._make_decision`, one constructor per reason string
template with its interpolated numeric payloads. -/
inductive Finding where
  | yieldDiscrepancy (predicted expected : ℚ)
  | moderateFraud (score : ℚ)
  | lowConfidence (confidence : ℚ)
  deriving DecidableEq

/-- Decision reasons of `ClaimEvaluator._make_decision`, one constructor
per return-site reason string with its interpolated payloads. -/
inductive Reason where
  | duplicateImage
  | highFraudRisk (score : ℚ)
  | insufficientDamage (confidence : ℚ)
  | multipleFindings (findings : List Finding)
  | fraudOverride (score : ℚ) (findings : List Finding)
  | lowDamage (confidence : ℚ)
  | conditionalApproval (findings : List Finding)
  | fullApproval
  deriving DecidableEq

/-- Embeds `ClaimEvaluator._make_decision`: the priority-ordered rule
cascade producing the approval flag and the reason. -/
def make_decision (damageConfidence : ℚ) (isDuplicate : Bool) (predictedYield expectedYield : ℚ)
    (fraudDetected : Bool) (fraudScore claimAmount : ℚ) : Bool × Reason :=
  if isDuplicate then (false, .duplicateImage)
  else if fraudDetected = true ∧ fraudScore > 70 then (false, .highFraudRisk fraudScore)
  else if damageConfidence < 30 then (false, .insufficientDamage damageConfidence)
  else
    let yieldDiscrepancy :=
      if expectedYield > 0 then |predictedYield - expectedYield| / expectedYield else 0
    let reasons : List Finding :=
      (if yieldDiscrepancy > 1 / 2 then [Finding.yieldDiscrepancy predictedYield expectedYield]
       else []) ++
      (if fraudDetected = true ∧ fraudScore > 50 then [Finding.moderateFraud fraudScore]
       else []) ++
      (if damageConfidence < 50 then [Finding.lowConfidence damageConfidence] else [])
    if reasons.length ≥ 2 then (false, .multipleFindings reasons)
    else if fraudDetected = true ∧ fraudScore > 60 then (false, .fraudOverride fraudScore reasons)
    else if damageConfidence < 40 then (false, .lowDamage damageConfidence)
    else if reasons ≠ [] then (true, .conditionalApproval reasons)
    else (true, .fullApproval)

/-- Python truthiness of an optional string argument, as tested by
`if sowing_date and soil_type and irrigation_type ...`: `None` and the
empty string are falsy. -/
def truthyStr : Option String → Bool
  | none => false
  | some s => decide (s ≠ "")

/-- Embeds the predicted-yield selection of `ClaimEvaluator.evaluate`
(step 2): the predictor is consulted only when the three optional string
fields are truthy and the fertilizer value is not `None`; the
`predictorResult` parameter carries the guarded `self.yield_predictor.predict`
call, with `none` modelling a raised-and-caught prediction exception.
Every other path keeps the claimant's expected yield. -/
def select_predicted_yield (expectedYield : ℚ) (sowingDate soilType irrigationType : Option String)
    (fertilizerUsage : Option ℚ) (predictorResult : Option ℚ) : ℚ :=
  if truthyStr sowingDate && truthyStr soilType && truthyStr irrigationType
      && fertilizerUsage.isSome then
    predictorResult.getD expectedYield
  else expectedYield

/-! Helper lemmas shared by the claim theorems. -/

/-- Folding `max` over a list never drops below the initial accumulator. -/
lemma foldl_max_init_le (f : ℕ → ℚ) (l : List ℕ) (a : ℚ) :
    a ≤ l.foldl (fun m s => max m (f s)) a := by
  induction l generalizing a with
  | nil => exact le_refl a
  | cons x xs ih => exact le_trans (le_max_left a (f x)) (ih (max a (f x)))

/-- Folding `max` over a list dominates the value at every member. -/
lemma mem_le_foldl_max (f : ℕ → ℚ) (l : List ℕ) (g : ℕ) :
    ∀ a : ℚ, g ∈ l → f g ≤ l.foldl (fun m s => max m (f s)) a := by
  induction l with
  | nil => intro a hg; cases hg
  | cons x xs ih =>
    intro a hg
    rcases List.mem_cons.mp hg with hx | hx
    · subst hx
      exact le_trans (le_max_right a (f g)) (foldl_max_init_le f xs (max a (f g)))
    · exact ih (max a (f x)) hx

/-- An exact member of a non-empty store is reported as a duplicate with
confidence 100. -/
lemma check_duplicate_of_mem (h : ℕ) (s : List ℕ) (t : ℚ) (hm : h ∈ s) :
    check_duplicate h s t = (true, 100) := by
  unfold check_duplicate
  rw [if_neg (List.ne_nil_of_mem hm), if_pos hm]

/-! Claim theorems. -/

/-- C1: in the decision cascade, `is_duplicate = true` forces a rejection
with the duplicate-specific reason, regardless of every other input —
rule 1 is evaluated strictly first and is terminal. -/
theorem C1_duplicate_rule_terminal (damageConfidence predictedYield expectedYield
    fraudScore claimAmount : ℚ) (fraudDetected : Bool) :
    make_decision damageConfidence true predictedYield expectedYield fraudDetected
      fraudScore claimAmount = (false, Reason.duplicateImage) := rfl

/-- C8: `convert_to_hectares` evaluates the documented table on "5 acre"
to 2.02343 hectares, multiplies by the looked-up factor whenever the
lowercased unit is in the table, and returns the value unchanged for any
unit not in the table. -/
theorem C8_convert_to_hectares_table (v : ℚ) (u : String) :
    convert_to_hectares 5 ("acre") = 202343 / 100000 ∧
    (∀ f, lookupStr (toLowerStr u) conversion_factors = some f →
      convert_to_hectares v u = v * f) ∧
    (lookupStr (toLowerStr u) conversion_factors = none → convert_to_hectares v u = v) := by
  refine ⟨?_, fun f hf => ?_, fun hf => ?_⟩
  · have hl : toLowerStr ("acre") = "acre" := by decide
    rw [convert_to_hectares, hl]
    norm_num [lookupStr, conversion_factors]
  · simp only [convert_to_hectares, hf]
  · simp only [convert_to_hectares, hf]

/-- C8 witness: the unknown unit "sqyard" passes through unchanged and
"5 acre" converts to 2.02343 hectares. -/
theorem C8_witness :
    convert_to_hectares 7 ("sqyard") = 7 ∧
    convert_to_hectares 5 ("acre") = 202343 / 100000 := by
  have h := C8_convert_to_hectares_table 7 ("sqyard")
  exact ⟨h.2.2 (by decide), h.1⟩

/-- C9: for any month a parseable sowing date can produce, the Kharif
flag is 1 exactly for months 6–10 and the Rabi flag is 1 exactly for
months ≥ 11 or ≤ 4; the flags are never both 1, and month 5 gets neither
season. -/
theorem C9_season_flags (m : ℕ) (h1 : 1 ≤ m) (h2 : m ≤ 12) :
    ((determine_season m).1 = 1 ↔ (6 ≤ m ∧ m ≤ 10)) ∧
    ((determine_season m).2 = 1 ↔ (11 ≤ m ∨ m ≤ 4)) ∧
    ¬((determine_season m).1 = 1 ∧ (determine_season m).2 = 1) ∧
    (m = 5 → determine_season m = (0, 0)) := by
  interval_cases m <;>
    exact ⟨by decide, by decide, by decide, fun h => by first | decide | omega⟩

/-- C9 witness: month 5 is in bounds and receives neither season flag. -/
theorem C9_witness : (1 ≤ 5 ∧ 5 ≤ 12) ∧ determine_season 5 = (0, 0) :=
  ⟨by decide, (C9_season_flags 5 (by decide) (by decide)).2.2.2 rfl⟩

/-- C10: any crop string whose lowercased, trimmed form is missing from
the encoding table is encoded as 0 by both the fraud and the yield
feature builders — the same code the table assigns to rice — so an
unrecognised crop is indistinguishable from rice in both vectors. -/
theorem C10_unknown_crop_encodes_as_rice (s : String) :
    (lookupStr (trimStr (toLowerStr s)) crop_encoding = none →
      fraud_encode_crop_type s = 0 ∧ yield_encode_crop_type s = 0) ∧
    fraud_encode_crop_type s = yield_encode_crop_type s ∧
    fraud_encode_crop_type ("rice") = 0 := by
  refine ⟨fun h => ⟨?_, ?_⟩, rfl, by decide⟩
  · simp [fraud_encode_crop_type, h]
  · simp [yield_encode_crop_type, h]

/-- C10 witness: the crop string "unknown" is not in the table and both
builders encode it as 0, the code of rice. -/
theorem C10_witness :
    lookupStr (trimStr (toLowerStr ("unknown"))) crop_encoding = none ∧
    fraud_encode_crop_type ("unknown") = 0 ∧ yield_encode_crop_type ("unknown") = 0 := by
  have h := (C10_unknown_crop_encodes_as_rice ("unknown")).1 (by decide)
  exact ⟨by decide, h.1, h.2⟩

/-- C2 counterexample: on the malformed land-size string "abc acre"
(first token not a number), `parse_land_size` itself fails, yet both the
fraud-detection and the yield-prediction pipelines continue with the
substituted default area of 1 hectare instead of surfacing the error —
refuting the claim that no pipeline continues with a substituted area. -/
theorem C2_counterexample :
    parse_land_size ("abc acre") = none ∧
    fraud_parse_land_size ("abc acre") = 1 ∧
    yield_parse_land_size ("abc acre") = 1 := by
  have hs : splitWS ("abc acre") = ["abc", "acre"] := by decide
  have hf : parseFloatTok (("abc").data) = none := by decide
  have h : parse_land_size ("abc acre") = none := by
    simp [parse_land_size, hs, parseFloat, hf]
  exact ⟨h, by simp [fraud_parse_land_size, h], by simp [yield_parse_land_size, h]⟩

/-- C2 amended: for every malformed land-size string (fewer than two
whitespace-separated tokens, or an unparseable first token) the low-level
`parse_land_size` does fail, but the fraud-detection and yield-prediction
pipelines catch the failure and continue with a substituted default area
of 1 hectare, so no input-format error is surfaced from claim
processing. -/
theorem C2_amended_default_substitution (s : String)
    (h : (splitWS s).length < 2 ∨ parseFloat ((splitWS s).getD 0 "") = none) :
    parse_land_size s = none ∧ fraud_parse_land_size s = 1 ∧ yield_parse_land_size s = 1 := by
  have hp : parse_land_size s = none := by
    by_cases hl : (splitWS s).length < 2
    · simp [parse_land_size, hl]
    · rcases h with h | h
      · exact absurd h hl
      · simp only [parse_land_size]
        rw [if_neg hl, h]
  exact ⟨hp, by simp [fraud_parse_land_size, hp], by simp [yield_parse_land_size, hp]⟩

/-- C2 amended witness: the one-token string "5" is malformed and both
pipelines substitute the default 1 hectare. -/
theorem C2_witness :
    parse_land_size ("5") = none ∧
    fraud_parse_land_size ("5") = 1 ∧ yield_parse_land_size ("5") = 1 :=
  C2_amended_default_substitution ("5") (Or.inl (by decide))

/-- C3 counterexample: with fertilizer usage 1 kg/acre the fertilizer
element of the yield feature vector is 10000/4047 (division by the
source's literal constant 0.4047), which differs from division by the
documented table factor 0.404686 — refuting the claim as stated. -/
theorem C3_counterexample :
    (yield_prepare_features ("wheat") ("5 acre") 90 10 ("black") ("sprinkler") 1 none).getD 5 0 =
      10000 / 4047 ∧
    (10000 / 4047 : ℚ) ≠ 1 / (404686 / 1000000) := by
  refine ⟨?_, by norm_num⟩
  norm_num [yield_prepare_features]

/-- C3 amended: for every fertilizer_usage input (kg/acre), the
fertilizer feature at index 5 of the 13-element yield vector equals
fertilizer_usage divided by 0.4047, the rounded acre-to-hectare constant
hard-coded in `_prepare_features` (not the conversion table's 0.404686). -/
theorem C3_fertilizer_feature (cropType landSize : String) (days month : ℕ)
    (soilType irrigationType : String) (fertilizerUsage : ℚ) (w : Option WeatherInput) :
    (yield_prepare_features cropType landSize days month soilType irrigationType
        fertilizerUsage w).getD 5 0 = fertilizerUsage / (4047 / 10000) ∧
    (yield_prepare_features cropType landSize days month soilType irrigationType
        fertilizerUsage w).length = 13 := by
  constructor
  · simp [yield_prepare_features]
  · simp [yield_prepare_features]

/-- C6: the fraud feature builder defines the claim-to-yield quotient as 0
whenever the expected yield is non-positive, and the per-hectare
quotients as 0 whenever the parsed area is non-positive, always producing
a full 12-element vector (no division-by-zero failure on any numeric
input). -/
theorem C6_fraud_features_guarded (cropType landSize : String) (expectedYield claimAmount : ℚ)
    (w : Option WeatherInput) (historicalClaims : ℕ) :
    (expectedYield ≤ 0 →
      (fraud_prepare_features cropType landSize expectedYield claimAmount w
        historicalClaims).getD 6 0 = 0) ∧
    (fraud_parse_land_size landSize ≤ 0 →
      (fraud_prepare_features cropType landSize expectedYield claimAmount w
        historicalClaims).getD 4 0 = 0 ∧
      (fraud_prepare_features cropType landSize expectedYield claimAmount w
        historicalClaims).getD 5 0 = 0) ∧
    (fraud_prepare_features cropType landSize expectedYield claimAmount w
      historicalClaims).length = 12 := by
  refine ⟨fun hy => ?_, fun ha => ⟨?_, ?_⟩, by simp [fraud_prepare_features]⟩
  · simp [fraud_prepare_features, not_lt.mpr hy]
  · simp [fraud_prepare_features, not_lt.mpr ha]
  · simp [fraud_prepare_features, not_lt.mpr ha]

/-- C6 witness: with land size "0 hectare" and expected yield 0 the three
guarded quotient features are all 0 and the vector still has 12
elements. -/
theorem C6_witness :
    (fraud_prepare_features ("rice") ("0 hectare") 0 5000 none 0).getD 6 0 = 0 ∧
    (fraud_prepare_features ("rice") ("0 hectare") 0 5000 none 0).getD 4 0 = 0 ∧
    (fraud_prepare_features ("rice") ("0 hectare") 0 5000 none 0).getD 5 0 = 0 ∧
    (fraud_prepare_features ("rice") ("0 hectare") 0 5000 none 0).length = 12 := by
  have harea : fraud_parse_land_size ("0 hectare") = 0 := by
    have hs : splitWS ("0 hectare") = ["0", "hectare"] := by decide
    have ht : parseFloatTok (("0").data) = some ⟨false, ['0'], [], false, []⟩ := by decide
    have hl : toLowerStr ("hectare") = "hectare" := by decide
    have hd : digitsToNat ['0'] = 0 := by decide
    have hd2 : digitsToNat ([] : List Char) = 0 := by decide
    simp [fraud_parse_land_size, parse_land_size, hs, parseFloat, ht, floatTokValue,
      hd, hd2, convert_to_hectares, hl, lookupStr, conversion_factors]
  have h := C6_fraud_features_guarded ("rice") ("0 hectare") 0 5000 none 0
  have h2 := h.2.1 (le_of_eq harea)
  exact ⟨h.1 (le_refl 0), h2.1, h2.2, h.2.2⟩

/-- C7: the yield predictor is consulted only when all four optional
inputs are present (the decision condition being true forces all four to
be non-`None`), and whenever any of the four is absent the predicted
yield used downstream equals the claimant's expected yield for every
possible predictor outcome — the substitution is a documented fallback,
not an error. -/
theorem C7_yield_substitution (expectedYield : ℚ)
    (sowingDate soilType irrigationType : Option String) (fertilizerUsage : Option ℚ) :
    ((sowingDate = none ∨ soilType = none ∨ irrigationType = none ∨ fertilizerUsage = none) →
      ∀ predictorResult, select_predicted_yield expectedYield sowingDate soilType
        irrigationType fertilizerUsage predictorResult = expectedYield) ∧
    ((truthyStr sowingDate && truthyStr soilType && truthyStr irrigationType
        && fertilizerUsage.isSome) = true →
      sowingDate ≠ none ∧ soilType ≠ none ∧ irrigationType ≠ none ∧ fertilizerUsage ≠ none) := by
  constructor
  · intro h predictorResult
    rcases h with h | h | h | h <;> subst h <;> simp [select_predicted_yield, truthyStr]
  · intro h
    simp only [Bool.and_eq_true] at h
    refine ⟨?_, ?_, ?_, ?_⟩
    · intro hn; rw [hn] at h; simp [truthyStr] at h
    · intro hn; rw [hn] at h; simp [truthyStr] at h
    · intro hn; rw [hn] at h; simp [truthyStr] at h
    · intro hn; rw [hn] at h; simp at h

/-- C7 witness: with a missing sowing date the engine keeps the expected
yield 20 whatever the predictor would have said, and a fully populated
input has all four fields present. -/
theorem C7_witness :
    select_predicted_yield 20 none (some ("black")) (some ("canal")) (some 45) (some 99) = 20 ∧
    (some ("2024-11-10") : Option String) ≠ none := by
  constructor
  · exact (C7_yield_substitution 20 none (some ("black")) (some ("canal"))
      (some 45)).1 (Or.inl rfl) (some 99)
  · exact ((C7_yield_substitution 20 (some ("2024-11-10")) (some ("black"))
      (some ("canal")) (some 45)).2 (by decide)).1

/-- C4: against a non-empty store, an exact member is a duplicate with
confidence 100; otherwise the verdict is duplicate exactly when the
maximum normalized Hamming similarity over the store reaches the default
0.95 threshold, with confidence that maximum times 100; and any stored
64-bit hash within Hamming distance 3 of the query forces a duplicate
verdict. -/
theorem C4_check_duplicate_spec (h : ℕ) (stored : List ℕ) :
    (stored ≠ [] → h ∈ stored → check_duplicate h stored (95 / 100) = (true, 100)) ∧
    (stored ≠ [] → h ∉ stored →
      ((check_duplicate h stored (95 / 100)).1 = true ↔
        max_similarity h stored ≥ 95 / 100) ∧
      (check_duplicate h stored (95 / 100)).2 = max_similarity h stored * 100) ∧
    (∀ g ∈ stored, h < 2 ^ 64 → g < 2 ^ 64 → hammingDist h g ≤ 3 →
      (check_duplicate h stored (95 / 100)).1 = true) := by
  refine ⟨fun _ hm => check_duplicate_of_mem h stored (95 / 100) hm, fun hne hm => ?_, ?_⟩
  · unfold check_duplicate
    rw [if_neg hne, if_neg hm]
    exact ⟨decide_eq_true_iff, rfl⟩
  · intro g hg _ _ hd
    by_cases hm : h ∈ stored
    · rw [check_duplicate_of_mem h stored (95 / 100) hm]
    · have hsim : (95 / 100 : ℚ) ≤ hash_similarity h g := by
        unfold hash_similarity
        have hd3 : (hammingDist h g : ℚ) ≤ 3 := by exact_mod_cast hd
        linarith
      have hmax : hash_similarity h g ≤ max_similarity h stored :=
        mem_le_foldl_max (hash_similarity h) stored g 0 hg
      unfold check_duplicate
      rw [if_neg (List.ne_nil_of_mem hg), if_neg hm]
      exact decide_eq_true (le_trans hsim hmax)

/-- C4 witness: an exact match on the store [5] gives (true, 100); for
query 1 against store [2] the verdict and confidence follow the maximum
similarity; and the stored hash 3 at Hamming distance 1 from query 1
forces a duplicate verdict. -/
theorem C4_witness :
    check_duplicate 5 [5] (95 / 100) = (true, 100) ∧
    ((check_duplicate 1 [2] (95 / 100)).1 = true ↔ max_similarity 1 [2] ≥ 95 / 100) ∧
    (check_duplicate 1 [2] (95 / 100)).2 = max_similarity 1 [2] * 100 ∧
    (check_duplicate 1 [3] (95 / 100)).1 = true := by
  have h1 := (C4_check_duplicate_spec 5 [5]).1 (by decide) (by decide)
  have h2 := (C4_check_duplicate_spec 1 [2]).2.1 (by decide) (by decide)
  have h3 := (C4_check_duplicate_spec 1 [3]).2.2 3 (by decide) (by decide) (by decide) (by decide)
  exact ⟨h1, h2.1, h2.2, h3⟩

/-- C5: whenever the verification step reports a non-duplicate, the
computed hash is added to the store, and re-verifying the same hash
against the updated store yields a duplicate verdict with confidence
100. -/
theorem C5_rehash_reflexive (h : ℕ) (stored : List ℕ)
    (hnd : (verify_dedup h stored).1.1 = false) :
    h ∈ (verify_dedup h stored).2 ∧
    (verify_dedup h (verify_dedup h stored).2).1 = (true, 100) := by
  have hstore : (verify_dedup h stored).2 = h :: stored := by
    simp only [verify_dedup] at hnd ⊢
    rw [hnd]
    simp
  refine ⟨by rw [hstore]; exact List.mem_cons_self h stored, ?_⟩
  rw [hstore]
  simp only [verify_dedup]
  exact check_duplicate_of_mem h (h :: stored) (95 / 100) (List.mem_cons_self h stored)

/-- C5 witness: hash 0 against the empty store is a non-duplicate, gets
stored, and the second verification returns (true, 100). -/
theorem C5_witness :
    0 ∈ (verify_dedup 0 []).2 ∧ (verify_dedup 0 (verify_dedup 0 []).2).1 = (true, 100) :=
  C5_rehash_reflexive 0 [] (by decide)

end KR
